import Mathlib

/-!
Verification of the action-invocation layer of `aiocqhttp` (`aiocqhttp/api.py`)
against its natural-language specification.

The Python source is shallowly embedded: JSON values become an inductive type,
Python dicts become association lists with first-match lookup, exceptions
become an explicit error type, and the `async` control flow of each call is
made explicit by passing the outcome of the one suspension point (the await
on the pending future) as a parameter.
-/

set_option autoImplicit false

namespace Aiocqhttp

/-- JSON values as decoded by `json.loads` / produced by `json.dumps`.
Numbers are modelled as integers (the payloads the claims exercise are
integral; no claim depends on float behaviour). -/
inductive Json where
  | null
  | bool (b : Bool)
  | num (n : Int)
  | str (s : String)
  | arr (elems : List Json)
  | obj (fields : List (String × Json))

/-- `d.get(k)` on a Python dict represented as an association list:
the value of the first entry whose key equals `k`, if any. -/
def dictGet (fields : List (String × Json)) (k : String) : Option Json :=
  match fields.find? (fun p => p.1 = k) with
  | some p => some p.2
  | none => none

/-- `result.get(k)` where `result` is a decoded JSON value: field lookup when
the value is an object, `none` otherwise (non-objects have no fields). -/
def Json.get (j : Json) (k : String) : Option Json :=
  match j with
  | .obj fields => dictGet fields k
  | _ => none

/-- Whether a JSON value is an object (`isinstance(result, dict)` in the source). -/
def Json.isObj (j : Json) : Bool :=
  match j with
  | .obj _ => true
  | _ => false

/-- Modelled from the spec: the failure taxonomy of the `.exceptions` module,
which is imported by `api.py` but absent from the sources. Per the spec
(section 7) there are four distinct failure kinds: `TransportUnavailable`
(= `ApiNotAvailable` in the code), `ActionFailed` carrying a retcode,
`HttpFailed` carrying the HTTP status, and `NetworkError`; the dispatcher
intercepts only `ApiNotAvailable`, so the kinds are modelled as distinct
constructors. `ActionFailed.retcode` is `result.get('retcode')`, which may
be absent (`None`), hence the `Option`. -/
inductive ApiError where
  | apiNotAvailable
  | actionFailed (retcode : Option Json)
  | httpFailed (status : Nat)
  | networkError (msg : String)

/-- Python `result.get('status') == 'failed'`: the lookup produced the very
string `'failed'` (equality of any non-string value, or a missing field,
with a string is `False` in Python). -/
def statusIsFailed (v : Option Json) : Bool :=
  match v with
  | some (.str s) => s = "failed"
  | _ => false

/-- `_handle_api_result(result)`: on a dict whose `status` field equals
`'failed'`, raise `ActionFailed(retcode=result.get('retcode'))`; on any
other dict return `result.get('data')` (Python `None`, i.e. `.null`, when
absent); on a non-dict the Python function falls off the end and returns
`None`. -/
def handleApiResult (result : Json) : Except ApiError Json :=
  match result with
  | .obj fields =>
      if statusIsFailed (dictGet fields "status") then
        .error (.actionFailed (dictGet fields "retcode"))
      else .ok ((dictGet fields "data").getD .null)
  | _ => .ok .null

/-- The observable outcome of the HTTP exchange performed inside
`HttpApi.call_action`: a response with a status code and a decoded JSON
body, or one of the two `aiohttp` client-side failures the source catches. -/
inductive HttpOutcome where
  | resp (status : Nat) (body : Json)
  | invalidUrl
  | clientError

/-- `str.rstrip('/')`: drop trailing slashes. -/
def rstripSlash (s : String) : String :=
  String.mk ((s.data.reverse.dropWhile (fun c => c = '/')).reverse)

/-- `HttpApi.__init__`: `self._api_root = api_root.rstrip('/') if api_root else None`.
Python falsiness of the empty string is made explicit. -/
def mkApiRoot (apiRoot : Option String) : Option String :=
  match apiRoot with
  | some s => if s = "" then none else some (rstripSlash s)
  | none => none

/-- `HttpApi._is_available`: `bool(self._api_root)` — the stored root is
non-`None` and non-empty. -/
def httpIsAvailable (apiRoot : Option String) : Bool :=
  match apiRoot with
  | some s => s ≠ ""
  | none => false

/-- `HttpApi.call_action`, as a function of the stored api root and the
outcome of the HTTP exchange: unavailable roots raise `ApiNotAvailable`;
a 2xx response goes through `_handle_api_result`; any other status raises
`HttpFailed(resp.status)`; `aiohttp.InvalidURL` and `aiohttp.ClientError`
are converted to `NetworkError`. -/
def httpCallAction (apiRoot : Option String) (out : HttpOutcome) :
    Except ApiError Json :=
  if httpIsAvailable apiRoot then
    match out with
    | .resp status body =>
        if 200 ≤ status ∧ status < 300 then handleApiResult body
        else .error (.httpFailed status)
    | .invalidUrl => .error (.networkError "API root url invalid")
    | .clientError => .error (.networkError "HTTP request failed with client error")
  else
    .error .apiNotAvailable

/-! ### `_SequenceGenerator` -/

/-- `sys.maxsize` on a 64-bit CPython build: the platform's maximum
representable positive integer. -/
def maxsize : Nat := 2 ^ 63 - 1

/-- `_SequenceGenerator.next()`: returns the current counter and stores
`(counter + 1) % sys.maxsize`. -/
def seqNext (seq : Nat) : Nat × Nat :=
  (seq, (seq + 1) % maxsize)

/-- The class attribute `_seq` after `k` calls to `next()`, starting from the
initial value `1`. -/
def seqState : Nat → Nat
  | 0 => 1
  | k + 1 => ((seqState k) + 1) % maxsize

/-- The value returned by the `(k+1)`-th call to `next()` (0-indexed): the
state before that call. -/
def seqReturn (k : Nat) : Nat :=
  (seqNext (seqState k)).1

/-! ### `ResultStore`

`ResultStore._futures` is a dict from integer sequence number to
`asyncio.Future`. A future is either pending or already fulfilled with a
result; dict assignment replaces any existing entry, `del` removes the
entry. -/

/-- The state of one `asyncio.Future` held in `ResultStore._futures`. -/
inductive FutureState where
  | pending
  | resolved (result : Json)

/-- `ResultStore._futures`, a Python dict keyed by the integer `seq`. -/
abbrev Store := List (Int × FutureState)

/-- `cls._futures.get(seq)`. -/
def storeGet (s : Store) (seq : Int) : Option FutureState :=
  match s.find? (fun p => p.1 = seq) with
  | some p => some p.2
  | none => none

/-- `del cls._futures[seq]`. -/
def storeErase (s : Store) (seq : Int) : Store :=
  s.filter (fun p => p.1 ≠ seq)

/-- `cls._futures[seq] = fut`: dict assignment, replacing any existing entry
for `seq`. -/
def storeSet (s : Store) (seq : Int) (fut : FutureState) : Store :=
  (seq, fut) :: storeErase s seq

/-- `isinstance(x, int)` on a decoded JSON value: Python ints, remembering
that Python `bool` is a subclass of `int` (`True == 1`, `False == 0`). -/
def jsonAsInt (j : Json) : Option Int :=
  match j with
  | .num n => some n
  | .bool b => some (if b then 1 else 0)
  | _ => none

/-- The guard of `ResultStore.add`: `isinstance(result.get('echo'), dict) and
isinstance(result['echo'].get('seq'), int)`, yielding `result['echo']['seq']`
when it holds. -/
def extractSeq (result : Json) : Option Int :=
  match result.get "echo" with
  | some (.obj echoFields) =>
      match dictGet echoFields "seq" with
      | some v => jsonAsInt v
      | none => none
  | _ => none

/-- `ResultStore.add(result)`: if the result carries a well-formed integer
`echo.seq` and a future is registered under it, fulfil that future with the
whole result. A `.error` models `asyncio`'s `InvalidStateError` raised by
`set_result` on an already-fulfilled future; in every other case nothing
happens and nothing is raised. -/
def storeAdd (s : Store) (result : Json) : Except String Store :=
  match extractSeq result with
  | some seq =>
      match storeGet s seq with
      | some .pending => .ok (storeSet s seq (.resolved result))
      | some (.resolved _) => .error "InvalidStateError"
      | none => .ok s
  | none => .ok s

/-- The registration step at the top of `ResultStore.fetch`:
`future = ...create_future(); cls._futures[seq] = future`. -/
def storeRegister (s : Store) (seq : Int) : Store :=
  storeSet s seq .pending

/-- `60`, the timeout passed to `asyncio.wait_for` in `ResultStore.fetch`,
in seconds. -/
def fetchTimeout : Nat := 60

/-- How the await on the pending future inside `ResultStore.fetch` ends:
the future was fulfilled with a result (by `ResultStore.add`), the
60-second timeout elapsed, or the waiting task was cancelled from
outside. -/
inductive FetchOutcome where
  | resolved (result : Json)
  | timeout
  | cancelled

/-- How `ResultStore.fetch` (and a call built on it) exits: a returned
value, a raised exception, or propagated task cancellation. -/
inductive CallExit where
  | ok (r : Json)
  | exc (e : ApiError)
  | cancelled

/-- `ResultStore.fetch(seq)` as a function of the store and of how the await
ends: registers a fresh pending future under `seq` (replacing any existing
entry), suspends, and then — through the `finally` on every exit path —
deletes the entry for `seq` before returning the result, raising
`NetworkError` on timeout, or propagating cancellation. -/
def storeFetch (s : Store) (seq : Int) (out : FetchOutcome) :
    CallExit × Store :=
  let registered := storeRegister s seq
  let atExit :=
    match out with
    | .resolved r => storeSet registered seq (.resolved r)
    | .timeout => registered
    | .cancelled => registered
  let after := storeErase atExit seq
  match out with
  | .resolved r => (.ok r, after)
  | .timeout => (.exc (.networkError "WebSocket API call timeout"), after)
  | .cancelled => (.cancelled, after)

/-! ### `WebSocketReverseApi`

`self._clients` is a dict from the `X-Self-ID` header string to a live
websocket handle; handles are modelled as naturals (any Python websocket
object is truthy). The inbound request context (`quart`'s `websocket`
proxy) is modelled as the `X-Self-ID` header of the active event
websocket, when one is active. The `self_id` keyword parameter is
modelled as an optional integer (its value in this protocol), with
Python truthiness: `params.get('self_id')` is falsy when absent or `0`. -/

/-- `self._clients.get(k)`. -/
def clientsGet (clients : List (String × Nat)) (k : String) : Option Nat :=
  match clients.find? (fun p => p.1 = k) with
  | some p => some p.2
  | none => none

/-- `WebSocketReverseApi._is_available`: an event websocket is active and its
`X-Self-ID` header is a key of `self._clients`. -/
def wsIsAvailable (clients : List (String × Nat)) (eventWs : Option String) :
    Bool :=
  match eventWs with
  | some h => (clientsGet clients h).isSome
  | none => false

/-- Python truthiness of `params.get('self_id')` for an optional integer. -/
def selfIdTruthy (selfId : Option Int) : Bool :=
  match selfId with
  | some v => v ≠ 0
  | none => false

/-- The connection-selection prelude of `WebSocketReverseApi.call_action`:
`api_ws = None`; if `_is_available()`, look up the event websocket's
`X-Self-ID`; elif `params.get('self_id')` is truthy, look up
`str(params['self_id'])`; elif exactly one client is connected, take its
sole handle (`list(self._clients.values())[0]`). -/
def wsSelect (clients : List (String × Nat)) (eventWs : Option String)
    (selfId : Option Int) : Option Nat :=
  if wsIsAvailable clients eventWs then
    match eventWs with
    | some h => clientsGet clients h
    | none => none
  else if selfIdTruthy selfId then
    match selfId with
    | some v => clientsGet clients (toString v)
    | none => none
  else if clients.length = 1 then
    clients.head?.map (fun p => p.2)
  else
    none

/-- The outbound frame of `WebSocketReverseApi.call_action`:
`{'action': action, 'params': params, 'echo': {'seq': seq}}`. -/
def wsFrame (action : String) (params : Json) (seq : Int) : Json :=
  .obj [("action", .str action), ("params", params),
        ("echo", .obj [("seq", .num seq)])]

/-- Lift the result extraction of `_handle_api_result` onto a call exit:
`return _handle_api_result(...)` turns an extraction failure into a raised
exception. -/
def exitOfResult (r : Except ApiError Json) : CallExit :=
  match r with
  | .ok v => .ok v
  | .error e => .exc e

/-- `WebSocketReverseApi.call_action`, as a function of the connected
clients, the inbound context, the `self_id` parameter, the generator state,
the store, and how the await on the reply ends. Returns the call exit, the
new generator state, the new store, and the frame sent on the selected
websocket (`none` when no websocket was selected and `ApiNotAvailable` was
raised before sending anything). -/
def wsCallAction (clients : List (String × Nat)) (eventWs : Option String)
    (selfId : Option Int) (action : String) (params : Json)
    (gen : Nat) (s : Store) (out : FetchOutcome) :
    CallExit × Nat × Store × Option (Nat × Json) :=
  match wsSelect clients eventWs selfId with
  | none => (.exc .apiNotAvailable, gen, s, none)
  | some ws =>
      let seq := (seqNext gen).1
      let gen1 := (seqNext gen).2
      let frame := wsFrame action params (Int.ofNat seq)
      let fetched := storeFetch s (Int.ofNat seq) out
      let exit :=
        match fetched.1 with
        | .ok r => exitOfResult (handleApiResult r)
        | .exc e => .exc e
        | .cancelled => .cancelled
      (exit, gen1, fetched.2, some (ws, frame))

/-! ### `UnifiedApi`

Each configured transport is summarised by the exit its `call_action`
would produce for this call; `none` means the transport is not
configured. The pure embedding additionally reports which transports
were invoked. -/

/-- The HTTP half of `UnifiedApi.call_action`: runs when the WebSocket half
did not succeed. `except ApiNotAvailable: pass` followed by the final
`if not succeeded: raise ApiNotAvailable` re-raises `ApiNotAvailable`;
every other exception propagates unchanged. -/
def unifiedHttpStep (http : Option CallExit) : CallExit :=
  match http with
  | some (.ok r) => .ok r
  | some (.exc .apiNotAvailable) => .exc .apiNotAvailable
  | some (.exc e) => .exc e
  | some .cancelled => .cancelled
  | none => .exc .apiNotAvailable

/-- `UnifiedApi.call_action`: WebSocket is preferred; only `ApiNotAvailable`
from it is caught (falling through to HTTP); any other exception, or
cancellation, propagates. Returns the exit together with two flags:
whether the WebSocket transport was invoked and whether the HTTP transport
was invoked. -/
def unifiedCall (wsr http : Option CallExit) : CallExit × Bool × Bool :=
  match wsr with
  | some (.ok r) => (.ok r, true, false)
  | some (.exc .apiNotAvailable) => (unifiedHttpStep http, true, http.isSome)
  | some (.exc e) => (.exc e, true, false)
  | some .cancelled => (.cancelled, true, false)
  | none => (unifiedHttpStep http, false, http.isSome)

/-! ### Store lemmas -/

theorem storeGet_storeErase (s : Store) (seq : Int) :
    storeGet (storeErase s seq) seq = none := by
  induction s with
  | nil => rfl
  | cons p t ih =>
      by_cases h : p.1 = seq
      · simpa [storeErase, List.filter_cons, h] using ih
      · simpa [storeErase, storeGet, List.filter_cons, List.find?_cons, h] using ih

theorem storeErase_storeErase (s : Store) (seq : Int) :
    storeErase (storeErase s seq) seq = storeErase s seq := by
  simp [storeErase, List.filter_filter]

theorem storeErase_cons_self (s : Store) (seq : Int) (fut : FutureState) :
    storeErase ((seq, fut) :: s) seq = storeErase s seq := by
  simp [storeErase, List.filter_cons]

theorem storeErase_storeSet (s : Store) (seq : Int) (fut : FutureState) :
    storeErase (storeSet s seq fut) seq = storeErase s seq := by
  simp only [storeSet]
  rw [storeErase_cons_self, storeErase_storeErase]

theorem storeGet_storeSet (s : Store) (seq : Int) (fut : FutureState) :
    storeGet (storeSet s seq fut) seq = some fut := by
  simp [storeGet, storeSet, List.find?_cons]

theorem storeSet_storeSet (s : Store) (seq : Int) (a b : FutureState) :
    storeSet (storeSet s seq a) seq b = storeSet s seq b := by
  conv_lhs => simp only [storeSet]
  rw [storeErase_cons_self, storeErase_storeErase]
  simp only [storeSet]

theorem storeRegister_storeErase (s : Store) (seq : Int) :
    storeRegister (storeErase s seq) seq = storeRegister s seq := by
  simp only [storeRegister, storeSet]
  rw [storeErase_storeErase s seq]

/-! ### Claim C2 -/

/-- C2: for every id, after `ResultStore.fetch` (the store's `wait`) exits —
returning the fulfilled result, raising on timeout, or propagating external
cancellation — the slot for that id is no longer present in the store: the
`finally` block removes it on every exit path, so no pending slot leaks. -/
theorem fetch_exit_removes_slot (s : Store) (seq : Int) (out : FetchOutcome) :
    storeGet (storeFetch s seq out).2 seq = none := by
  cases out <;> simp [storeFetch, storeGet_storeErase]

/-! ### Claim C3 -/

/-- C3: `ResultStore.fetch(seq)` whose await ends by the timeout — set to 60
seconds — raises `NetworkError` (that failure kind and no other) and leaves
the store without a slot for `seq`. -/
theorem fetch_timeout_raises_networkError (s : Store) (seq : Int) :
    (storeFetch s seq .timeout).1
        = .exc (.networkError "WebSocket API call timeout")
    ∧ storeGet (storeFetch s seq .timeout).2 seq = none
    ∧ fetchTimeout = 60 := by
  refine ⟨rfl, ?_, rfl⟩
  simp [storeFetch, storeGet_storeErase]

/-! ### Claim C8 -/

/-- C8: `ResultStore.add` (the store's `resolve`) with a result whose
`echo.seq` id has no registered slot is a no-op: the store is unchanged and
nothing is raised, so late or duplicate replies are silently dropped. -/
theorem resolve_unknown_id_noop (s : Store) (r : Json) (seq : Int)
    (hseq : extractSeq r = some seq) (habs : storeGet s seq = none) :
    storeAdd s r = .ok s := by
  simp [storeAdd, hseq, habs]

theorem resolve_unknown_id_noop_witness :
    storeAdd [((7 : Int), FutureState.pending)]
        (Json.obj [("echo", Json.obj [("seq", Json.num 5)])])
      = .ok [((7 : Int), FutureState.pending)] :=
  resolve_unknown_id_noop [((7 : Int), FutureState.pending)]
    (Json.obj [("echo", Json.obj [("seq", Json.num 5)])]) 5 rfl rfl

/-! ### Claim C9

The claim says registering (waiting on) an id that already has a pending
slot fails. In the code, `ResultStore.fetch` registers with a plain dict
assignment `cls._futures[seq] = future`, which never fails: it silently
replaces whatever slot was there. -/

/-- C9 counterexample: calling `fetch` on id 5 while the store already holds
a slot for 5 does not fail — the existing slot is silently replaced by a
fresh pending one and the call proceeds normally, returning the new reply. -/
theorem reregister_existing_id_succeeds :
    storeRegister [((5 : Int), FutureState.resolved (Json.num 9))] 5
        = [((5 : Int), FutureState.pending)]
    ∧ storeFetch [((5 : Int), FutureState.resolved (Json.num 9))] 5
          (.resolved (Json.num 3))
        = (CallExit.ok (Json.num 3), ([] : Store)) :=
  ⟨rfl, rfl⟩

/-- C9a amended: registration of an already-registered id never fails;
the dict assignment silently replaces the existing slot, so `fetch` on a
registered id behaves exactly as if the old slot had first been removed,
and right after registration the slot is a fresh pending one. -/
theorem reregister_replaces_slot (s : Store) (seq : Int) (out : FetchOutcome) :
    storeFetch s seq out = storeFetch (storeErase s seq) seq out
    ∧ storeGet (storeRegister s seq) seq = some .pending := by
  constructor
  · simp only [storeFetch, storeRegister_storeErase]
  · exact storeGet_storeSet s seq .pending

/-! ### Claim C4

The claim says the counter wraps to 1, never returning 0. In the code,
`next()` returns the current state and stores `(state + 1) % sys.maxsize`;
starting from `_seq = 1`, after the call that returns `maxsize - 1` the
state wraps to `0`, so the next call returns `0` and only the one after
that returns `1`. -/

theorem maxsize_numeral : maxsize = 9223372036854775807 := by
  norm_num [maxsize]

theorem seqState_closed (k : Nat) : seqState k = (1 + k) % maxsize := by
  induction k with
  | zero =>
      show 1 = (1 + 0) % maxsize
      rw [maxsize_numeral]
  | succ k ih =>
      show (seqState k + 1) % maxsize = (1 + (k + 1)) % maxsize
      rw [ih, maxsize_numeral]
      omega

/-- C4 counterexample: starting from the initial state, the call to `next()`
that follows the one returning `maxsize - 1` returns `0` — the sequence does
reach `0`, contradicting both "the first identifier returned after the wrap
is 1" and "next() never returns 0". -/
theorem seq_wrap_returns_zero :
    seqReturn (maxsize - 1) = 0 ∧ maxsize - 1 = 9223372036854775806 := by
  constructor
  · show seqState (maxsize - 1) = 0
    rw [seqState_closed, maxsize_numeral]
  · rw [maxsize_numeral]

/-- C4 amended: the counter wraps modulo `sys.maxsize`: the identifier
returned by the `(k+1)`-th call is `(1 + k) % maxsize`, so identifiers run
`1, 2, ..., maxsize - 1` and the first identifier returned after the wrap is
`0` (the one after it is `1`); `next()` returns `0` exactly once per period,
at the call that follows the one returning `maxsize - 1`. -/
theorem seq_wrap_behaviour :
    (∀ k, seqReturn k = (1 + k) % maxsize)
    ∧ seqReturn (maxsize - 2) = maxsize - 1
    ∧ seqReturn maxsize = 1
    ∧ (∀ k, seqReturn k = 0 ↔ (1 + k) % maxsize = 0) := by
  have hr : ∀ k, seqReturn k = (1 + k) % maxsize := fun k => seqState_closed k
  refine ⟨hr, ?_, ?_, fun k => by rw [hr k]⟩
  · rw [hr, maxsize_numeral]
  · rw [hr, maxsize_numeral]

/-! ### Claim C5 -/

/-- C5: with the HTTP transport available, a 2xx response hands its decoded
body to `_handle_api_result`; there, an object whose `status` field equals
`'failed'` raises `ActionFailed` carrying the object's `retcode` field, any
other object yields its `data` field as the success payload; a non-2xx
response raises `HttpFailed` carrying the numeric status code. The same
`_handle_api_result` is applied by `WebSocketReverseApi.call_action` to
replies fetched over the persistent transport. -/
theorem http_result_extraction (apiRoot : Option String) (status : Nat)
    (body : Json) (fields : List (String × Json))
    (hroot : httpIsAvailable apiRoot = true) :
    (200 ≤ status ∧ status < 300 →
        httpCallAction apiRoot (.resp status body) = handleApiResult body)
    ∧ (statusIsFailed (dictGet fields "status") = true →
        handleApiResult (.obj fields)
          = .error (.actionFailed (dictGet fields "retcode")))
    ∧ (statusIsFailed (dictGet fields "status") = false →
        handleApiResult (.obj fields)
          = .ok ((dictGet fields "data").getD .null))
    ∧ (¬(200 ≤ status ∧ status < 300) →
        httpCallAction apiRoot (.resp status body)
          = .error (.httpFailed status)) := by
  refine ⟨fun h2 => ?_, fun hf => ?_, fun hf => ?_, fun h2 => ?_⟩
  · simp [httpCallAction, hroot, h2]
  · simp [handleApiResult, hf]
  · simp [handleApiResult, hf]
  · simp [httpCallAction, hroot, h2]

theorem http_result_extraction_witness :
    httpCallAction (some "http://root")
        (.resp 200 (Json.obj [("status", Json.str "ok"),
                              ("data", Json.obj [("x", Json.num 1)])]))
      = .ok (Json.obj [("x", Json.num 1)])
    ∧ httpCallAction (some "http://root")
        (.resp 200 (Json.obj [("status", Json.str "failed"),
                              ("retcode", Json.num 100)]))
      = .error (.actionFailed (some (Json.num 100)))
    ∧ httpCallAction (some "http://root")
        (.resp 500 (Json.obj [])) = .error (.httpFailed 500) := by
  have hok := http_result_extraction (some "http://root") 200
      (Json.obj [("status", Json.str "ok"), ("data", Json.obj [("x", Json.num 1)])])
      [("status", Json.str "ok"), ("data", Json.obj [("x", Json.num 1)])] rfl
  have hfail := http_result_extraction (some "http://root") 200
      (Json.obj [("status", Json.str "failed"), ("retcode", Json.num 100)])
      [("status", Json.str "failed"), ("retcode", Json.num 100)] rfl
  have h500 := http_result_extraction (some "http://root") 500 (Json.obj [])
      [] rfl
  refine ⟨?_, ?_, ?_⟩
  · rw [hok.1 (by decide), hok.2.2.1 rfl]
    rfl
  · rw [hfail.1 (by decide), hfail.2.1 rfl]
    rfl
  · exact h500.2.2.2 (by decide)

/-! ### Claim C10 -/

/-- C10: a 2xx response whose decoded body is not a JSON object — array,
number, string, boolean or null — raises nothing: `_handle_api_result`
falls through and the call returns Python `None` as the success payload.
The persistent transport applies the same extraction to its replies. -/
theorem nonobject_body_yields_none (apiRoot : Option String) (status : Nat)
    (body : Json) (hroot : httpIsAvailable apiRoot = true)
    (h2 : 200 ≤ status ∧ status < 300) (hobj : body.isObj = false) :
    httpCallAction apiRoot (.resp status body) = .ok .null
    ∧ handleApiResult body = .ok .null := by
  have hh : handleApiResult body = .ok .null := by
    cases body with
    | obj fields => simp [Json.isObj] at hobj
    | _ => rfl
  exact ⟨by simp [httpCallAction, hroot, h2, hh], hh⟩

theorem nonobject_body_yields_none_witness :
    httpCallAction (some "http://root") (.resp 204 (Json.arr [Json.num 1]))
        = .ok .null
    ∧ handleApiResult (Json.arr [Json.num 1]) = .ok .null :=
  nonobject_body_yields_none (some "http://root") 204 (Json.arr [Json.num 1])
    rfl (by decide) rfl

/-! ### Claim C6

The claim says the selection falls through (a) context identity, (b)
`self_id` parameter, (c) sole registered connection, in order, each clause
applying only when its identity is registered. In the code the three cases
are an `if`/`elif`/`elif` chain guarded by *presence*, not registration:
when a truthy `self_id` is supplied but not registered, the chain stops and
the call raises `ApiNotAvailable` without ever considering the
sole-connection case. -/

/-- C6 counterexample: exactly one connection is registered (under `"1"`)
and a `self_id` of `2` is supplied with no inbound context; the claim's
clause (c) would select the sole connection, but the code selects nothing
and the call raises `ApiNotAvailable` before sending any frame. -/
theorem ws_selection_counterexample :
    wsSelect [("1", 10)] none (some 2) = none
    ∧ [("1", 10)].length = 1
    ∧ (wsCallAction [("1", 10)] none (some 2) "send_msg" (Json.obj []) 1 []
          FetchOutcome.timeout)
        = (.exc .apiNotAvailable, 1, ([] : Store), none) := by
  refine ⟨?_, rfl, ?_⟩ <;> rfl

/-- C6 amended: the target connection is chosen by the first applicable
clause of: (a) if an inbound context is active and its identity is
registered, that connection; (b) otherwise, if a truthy `self_id` parameter
is supplied, the connection registered under it — with no further fallback,
so an unregistered `self_id` yields no connection even when exactly one is
registered; (c) otherwise, the sole registered connection if exactly one
exists; anything else — including several connections with no selector —
yields no connection, and the call raises `ApiNotAvailable`. -/
theorem ws_selection_order (clients : List (String × Nat))
    (eventWs : Option String) (selfId : Option Int) :
    (∀ h w, eventWs = some h → clientsGet clients h = some w →
        wsSelect clients eventWs selfId = some w)
    ∧ (∀ v, wsIsAvailable clients eventWs = false → selfId = some v →
        v ≠ 0 → wsSelect clients eventWs selfId = clientsGet clients (toString v))
    ∧ (∀ c, wsIsAvailable clients eventWs = false →
        selfIdTruthy selfId = false → clients = [c] →
        wsSelect clients eventWs selfId = some c.2)
    ∧ (wsIsAvailable clients eventWs = false → selfIdTruthy selfId = false →
        clients.length ≠ 1 → wsSelect clients eventWs selfId = none)
    ∧ (wsSelect clients eventWs selfId = none →
        ∀ action params gen s out,
          (wsCallAction clients eventWs selfId action params gen s out).1
            = .exc .apiNotAvailable) := by
  refine ⟨?_, ?_, ?_, ?_, ?_⟩
  · intro h w hev hget
    subst hev
    simp [wsSelect, wsIsAvailable, hget]
  · intro v hav hsv hv
    subst hsv
    simp [wsSelect, hav, selfIdTruthy, hv]
  · intro c hav htr hcl
    subst hcl
    simp [wsSelect, hav, htr]
  · intro hav htr hlen
    simp [wsSelect, hav, htr, hlen]
  · intro hsel action params gen s out
    simp [wsCallAction, hsel]

theorem ws_selection_order_witness :
    wsSelect [("42", 7), ("43", 8)] (some "42") none = some 7 :=
  (ws_selection_order [("42", 7), ("43", 8)] (some "42") none).1 "42" 7 rfl rfl

/-! ### Claim C1 -/

/-- C1: `UnifiedApi.call_action` with both transports configured tries the
WebSocket (persistent) transport first; if it succeeds its result is
returned and HTTP is never invoked; if it raises `ApiNotAvailable` — and
only that failure kind — HTTP is invoked and its outcome returned (success
returned, failures propagated); any other WebSocket failure propagates
unchanged with HTTP never invoked; with neither transport configured, or
both unavailable, the call raises `ApiNotAvailable`. -/
theorem unified_failover (hb : CallExit) (r : Json) (e : ApiError) :
    unifiedCall (some (.ok r)) (some hb) = (.ok r, true, false)
    ∧ unifiedCall (some (.exc .apiNotAvailable)) (some hb)
        = (unifiedHttpStep (some hb), true, true)
    ∧ unifiedHttpStep (some (.ok r)) = .ok r
    ∧ (e ≠ .apiNotAvailable →
        unifiedCall (some (.exc e)) (some hb) = (.exc e, true, false)
        ∧ unifiedHttpStep (some (.exc e)) = .exc e)
    ∧ unifiedCall none none = (.exc .apiNotAvailable, false, false)
    ∧ unifiedCall (some (.exc .apiNotAvailable)) (some (.exc .apiNotAvailable))
        = (.exc .apiNotAvailable, true, true) := by
  refine ⟨rfl, rfl, rfl, fun he => ?_, rfl, rfl⟩
  cases e with
  | apiNotAvailable => exact absurd rfl he
  | actionFailed rc => exact ⟨rfl, rfl⟩
  | httpFailed st => exact ⟨rfl, rfl⟩
  | networkError m => exact ⟨rfl, rfl⟩

theorem unified_failover_witness :
    unifiedCall (some (.exc (.actionFailed (some (Json.num 100)))))
        (some (.ok (Json.num 1)))
      = (.exc (.actionFailed (some (Json.num 100))), true, false) :=
  ((unified_failover (.ok (Json.num 1)) (Json.num 1)
      (.actionFailed (some (Json.num 100)))).2.2.2.1
    (fun h => ApiError.noConfusion h)).1

/-! ### Claim C7 -/

/-- C7: when `WebSocketReverseApi.call_action` selects a connection, the
frame it sends is `{action, params, echo: {seq: id}}` where `id` is exactly
the identifier the generator returns at call time; registering `id` and
then resolving it with a reply `r` carrying `echo.seq = id` fulfils the
pending slot with exactly `r`; and the call awaiting that slot returns
exactly `r`, exiting with its result extraction. -/
theorem ws_call_frame_and_resolution (clients : List (String × Nat))
    (eventWs : Option String) (selfId : Option Int) (action : String)
    (params : Json) (gen : Nat) (s : Store) (r : Json) (ws : Nat) (seq : Int)
    (hseq : seq = Int.ofNat (seqNext gen).1)
    (hsel : wsSelect clients eventWs selfId = some ws)
    (hr : extractSeq r = some seq) :
    (wsCallAction clients eventWs selfId action params gen s (.resolved r)).2.2.2
        = some (ws, wsFrame action params seq)
    ∧ (wsFrame action params seq).get "echo"
        = some (.obj [("seq", .num seq)])
    ∧ storeAdd (storeRegister s seq) r
        = .ok (storeSet s seq (.resolved r))
    ∧ (storeFetch s seq (.resolved r)).1 = .ok r
    ∧ (wsCallAction clients eventWs selfId action params gen s (.resolved r)).1
        = exitOfResult (handleApiResult r) := by
  subst hseq
  refine ⟨?_, rfl, ?_, rfl, ?_⟩
  · simp [wsCallAction, hsel]
  · simp only [storeAdd, hr, storeRegister, storeGet_storeSet, storeSet_storeSet]
  · simp [wsCallAction, hsel, storeFetch]

theorem ws_call_frame_and_resolution_witness :
    (wsCallAction [("42", 7)] (some "42") none "send_msg"
        (Json.obj [("message", Json.str "hi")]) 1 []
        (.resolved (Json.obj [("echo", Json.obj [("seq", Json.num 1)]),
                              ("status", Json.str "ok"),
                              ("data", Json.str "x")]))).2.2.2
      = some (7, wsFrame "send_msg" (Json.obj [("message", Json.str "hi")]) 1)
    ∧ (wsCallAction [("42", 7)] (some "42") none "send_msg"
        (Json.obj [("message", Json.str "hi")]) 1 []
        (.resolved (Json.obj [("echo", Json.obj [("seq", Json.num 1)]),
                              ("status", Json.str "ok"),
                              ("data", Json.str "x")]))).1
      = CallExit.ok (Json.str "x") := by
  have h := ws_call_frame_and_resolution [("42", 7)] (some "42") none
      "send_msg" (Json.obj [("message", Json.str "hi")]) 1 []
      (Json.obj [("echo", Json.obj [("seq", Json.num 1)]),
                 ("status", Json.str "ok"), ("data", Json.str "x")])
      7 1 rfl rfl rfl
  refine ⟨h.1, ?_⟩
  rw [h.2.2.2.2]
  rfl

end Aiocqhttp
